import Mathlib

/-!
Shallow embedding of the Firewalla Home Assistant integration
(`custom_components/firewalla`): the resilient poller/cache
(`async_update_data` in `__init__.py`), the feature-flag resolver,
and the per-entity lookup and setup logic of `sensor.py` and
`device_tracker.py`.

Python JSON-like values are modelled by `Val`; Python dicts by
association lists (first binding wins, as in construction order);
a fetch (`client.get_*`) is modelled by its outcome on the current
tick, `Except PyErr (List Val)`, where `.error` means the call raised.
-/

/-- A Python value as it occurs in the integration's data: `None`,
booleans, numbers, strings, and JSON objects (dicts keyed by strings). -/
inductive Val where
  | none : Val
  | bool : Bool → Val
  | num : Int → Val
  | str : String → Val
  | obj : List (String × Val) → Val
  deriving Repr

mutual

/-- Python `==` on values. Dicts are compared field-by-field in order; the
source only ever compares primitive id values, for which this coincides
with Python equality. -/
def pyEq : Val → Val → Bool
  | .none, .none => true
  | .bool x, .bool y => x == y
  | .num x, .num y => x == y
  | .str x, .str y => x == y
  | .obj f, .obj g => pyEqFields f g
  | _, _ => false

/-- Field-list comparison used by `pyEq` on dicts. -/
def pyEqFields : List (String × Val) → List (String × Val) → Bool
  | [], [] => true
  | (k1, v1) :: t1, (k2, v2) :: t2 => k1 == k2 && pyEq v1 v2 && pyEqFields t1 t2
  | _, _ => false

end

/-- `d.get(k)` / `d[k]` key search on an association-list dict:
the first binding for `k`, if any. -/
def dget? {α : Type} (d : List (String × α)) (k : String) : Option α :=
  match d with
  | [] => Option.none
  | (k1, v) :: t => if k1 == k then some v else dget? t k

/-- `d.get(k, v)`: the first binding for `k`, defaulting to `v`. -/
def dgetD {α : Type} (d : List (String × α)) (k : String) (v : α) : α :=
  (dget? d k).getD v

/-- Exceptions raised by the modelled Python operations. -/
inductive PyErr where
  | attributeError : PyErr
  | keyError : PyErr
  | typeError : PyErr
  deriving Repr, DecidableEq

/-- `isinstance(v, dict)`. -/
def Val.isDict : Val → Bool
  | .obj _ => true
  | _ => false

/-- Python truthiness of a value (`if v:`): `None`, `False`, `0`, `""`
and `{}` are falsy. -/
def pyTruthy : Val → Bool
  | .none => false
  | .bool b => b
  | .num n => n != 0
  | .str s => !s.isEmpty
  | .obj f => !f.isEmpty

/-- `v.get(k, default)`: raises `AttributeError` when `v` is not a dict. -/
def pyGet (v : Val) (k : String) (default : Val) : Except PyErr Val :=
  match v with
  | .obj f => .ok (dgetD f k default)
  | _ => .error .attributeError

/-- `v[k]`: raises `TypeError` when `v` is not a dict, `KeyError` when the
key is absent. -/
def pyGetItem (v : Val) (k : String) : Except PyErr Val :=
  match v with
  | .obj f =>
    match dget? f k with
    | some x => .ok x
    | Option.none => .error .keyError
  | _ => .error .typeError

/-- `k in v` for a dict `v` (`false` on non-dicts; in the source this test
is only reached behind an `isinstance(v, dict)` guard). -/
def pyContains (v : Val) (k : String) : Bool :=
  match v with
  | .obj f => (dget? f k).isSome
  | _ => false

/-- Python `s.startswith(p)`: `p`'s characters are an initial segment of
`s`'s (Python compares by code point). -/
def pyStartsWith (s p : String) : Bool :=
  p.data.isPrefixOf s.data

/-- Python `s[n:]`: the characters of `s` from index `n` on. -/
def pySlice (s : String) (n : Nat) : String :=
  String.mk (s.data.drop n)

/-- A coordinator snapshot: the dict built in `async_update_data`
mapping collection names to record lists. -/
abbrev Snap := List (String × List Val)

/-- Python `xs or ys` on lists: `ys` when `xs` is empty, else `xs`. -/
def pyOr (xs ys : List Val) : List Val :=
  if xs.isEmpty then ys else xs

/-! ## The resilient poller/cache (`async_update_data`, `__init__.py`) -/

/-- The five fetch operations exposed by `FirewallaApiClient`, modelled by
their outcome on the current tick (`.error` = the awaited call raised). -/
structure FirewallaApiClient where
  get_devices : Except PyErr (List Val)
  get_boxes : Except PyErr (List Val)
  get_rules : Except PyErr (List Val)
  get_alarms : Except PyErr (List Val)
  get_flows : Except PyErr (List Val)

/-- The two config layers of a `ConfigEntry` restricted to the feature-flag
keys (the source stores booleans under these keys). -/
structure ConfigEntry where
  options : List (String × Bool)
  data : List (String × Bool)

/-- Modelled from the spec: `const.py` is not included in the sources; the
flag keys are opaque distinct strings whose exact spelling does not affect
behavior, only their distinctness. -/
def CONF_ENABLE_RULES : String := "enable_rules"

/-- Modelled from the spec: see `CONF_ENABLE_RULES`. -/
def CONF_ENABLE_ALARMS : String := "enable_alarms"

/-- Modelled from the spec: see `CONF_ENABLE_RULES`. -/
def CONF_ENABLE_FLOWS : String := "enable_flows"

/-- `def is_enabled(key): return opts.get(key, entry.data.get(key, False))`
(`__init__.py` line 61). -/
def is_enabled (entry : ConfigEntry) (key : String) : Bool :=
  (dget? entry.options key).getD ((dget? entry.data key).getD false)

/-- Names of the five fetch operations, for recording which ones a
refresh invokes. -/
inductive FetchOp where
  | devices : FetchOp
  | boxes : FetchOp
  | rules : FetchOp
  | alarms : FetchOp
  | flows : FetchOp
  deriving Repr, DecidableEq

/-- The distinguished error surfaced by the coordinator callback. -/
inductive RefreshError where
  | updateFailed : RefreshError
  deriving Repr, DecidableEq

/-- Everything one call of `async_update_data` produces: the returned
snapshot or the raised `UpdateFailed`, the `last_data` attribute after the
call, and the fetch operations invoked, in order. -/
structure UpdateOutcome where
  result : Except RefreshError Snap
  cache : Option Snap
  calls : List FetchOp
  deriving Repr

/-- One iteration of the optional-collection loop (`__init__.py` lines
78-83): when enabled, `results[key]` becomes the fetched list, or stays
`[]` when the fetch raises (caught and logged); when disabled the fetch is
not invoked and `results[key]` stays `[]`. -/
def fetchOptional (enabled : Bool) (fetch : Except PyErr (List Val)) : List Val :=
  if enabled then
    match fetch with
    | .ok xs => xs
    | .error _ => []
  else []

/-- The fetch names an optional-collection loop iteration invokes. -/
def optCall (enabled : Bool) (op : FetchOp) : List FetchOp :=
  if enabled then [op] else []

/-- `last = getattr(async_update_data, "last_data", {}) or {}`
(`__init__.py` line 86): Python `or` yields `{}` when `last_data` is
`None` or an empty (falsy) dict. -/
def lastOrEmpty (last_data : Option Snap) : Snap :=
  match last_data with
  | some d => if d.isEmpty then [] else d
  | Option.none => []

/-- Truthiness test `if getattr(async_update_data, "last_data", None):`
(`__init__.py` line 100). -/
def cacheTruthy (last_data : Option Snap) : Bool :=
  match last_data with
  | some d => !d.isEmpty
  | Option.none => false

/-- The `except` clause of `async_update_data` (`__init__.py` lines
99-103): with a truthy retained cache, log and return it unchanged;
otherwise raise `UpdateFailed`. -/
def updateExcept (last_data : Option Snap) (calls : List FetchOp) : UpdateOutcome :=
  if cacheTruthy last_data then
    { result := .ok (last_data.getD []), cache := last_data, calls := calls }
  else
    { result := .error .updateFailed, cache := last_data, calls := calls }

/-- `async_update_data` (`__init__.py` lines 51-103) for one tick:
`client` gives each fetch's outcome, `entry` the two flag layers, and
`last_data` the retained cache (the function attribute, `None` at setup).
Core fetches (`get_devices`, then `get_boxes`) that raise jump to the
`except` clause; optional collections are fetched per their flags with
per-call error protection; the merged dict prefers non-empty fresh values
(`x or last.get(key, [])`), is stored as the new cache, and is returned. -/
def async_update_data (client : FirewallaApiClient) (entry : ConfigEntry)
    (last_data : Option Snap) : UpdateOutcome :=
  match client.get_devices with
  | .error _ => updateExcept last_data [FetchOp.devices]
  | .ok devices =>
    match client.get_boxes with
    | .error _ => updateExcept last_data [FetchOp.devices, FetchOp.boxes]
    | .ok boxes =>
      let rulesRes := fetchOptional (is_enabled entry CONF_ENABLE_RULES) client.get_rules
      let alarmsRes := fetchOptional (is_enabled entry CONF_ENABLE_ALARMS) client.get_alarms
      let flowsRes := fetchOptional (is_enabled entry CONF_ENABLE_FLOWS) client.get_flows
      let last := lastOrEmpty last_data
      let data : Snap := [
        ("boxes", pyOr boxes (dgetD last "boxes" [])),
        ("devices", pyOr devices (dgetD last "devices" [])),
        ("rules", pyOr rulesRes (dgetD last "rules" [])),
        ("alarms", pyOr alarmsRes (dgetD last "alarms" [])),
        ("flows", pyOr flowsRes (dgetD last "flows" []))]
      { result := .ok data
        cache := some data
        calls := [FetchOp.devices, FetchOp.boxes]
          ++ optCall (is_enabled entry CONF_ENABLE_RULES) FetchOp.rules
          ++ optCall (is_enabled entry CONF_ENABLE_ALARMS) FetchOp.alarms
          ++ optCall (is_enabled entry CONF_ENABLE_FLOWS) FetchOp.flows }

/-! ## Per-entity lookups (`device_tracker.py`, `sensor.py`) -/

/-- `FirewallaDeviceTracker._get_device_data` (`device_tracker.py` lines
88-91): `next((d for d in devices if d.get("id") == self.device_id), {})`.
Scanning a non-dict element raises `AttributeError` (`d.get` on it). -/
def get_device_data (devices : List Val) (device_id : Val) : Except PyErr Val :=
  match devices with
  | [] => .ok (.obj [])
  | d :: rest =>
    match pyGet d "id" .none with
    | .error e => .error e
    | .ok idv =>
      if pyEq idv device_id then .ok d else get_device_data rest device_id

/-- The device scan in the sensors' `native_value` (`sensor.py` line 113):
`next((d for d in ... if d.get("id") == self.device_id), None)`; Python
`None` is `Val.none`. -/
def sensor_device_lookup (devices : List Val) (device_id : Val) : Except PyErr Val :=
  match devices with
  | [] => .ok .none
  | d :: rest =>
    match pyGet d "id" .none with
    | .error e => .error e
    | .ok idv =>
      if pyEq idv device_id then .ok d else sensor_device_lookup rest device_id

/-- The flow scan in `FirewallaFlowSensor.native_value` (`sensor.py` line
273): `next((f for f in ... if f["id"] == self.flow_id), {})`. Bracket
access raises `KeyError` on a dict without `"id"` and `TypeError` on a
non-dict element. -/
def flow_lookup (flows : List Val) (flow_id : Val) : Except PyErr Val :=
  match flows with
  | [] => .ok (.obj [])
  | f :: rest =>
    match pyGetItem f "id" with
    | .error e => .error e
    | .ok idv =>
      if pyEq idv flow_id then .ok f else flow_lookup rest flow_id

/-- `FirewallaMacAddressSensor.native_value` (`sensor.py` lines 110-118):
look the device up by id, return `None` when not found (falsy), else
`mac = device.get("mac", self.device_id)` followed by
`mac[4:] if mac.startswith("mac:") else mac` (`startswith` raises
`AttributeError` on a non-string). -/
def mac_native_value (devices : List Val) (device_id : Val) : Except PyErr Val :=
  match sensor_device_lookup devices device_id with
  | .error e => .error e
  | .ok device =>
    if !pyTruthy device then .ok .none
    else
      match pyGet device "mac" device_id with
      | .error e => .error e
      | .ok mac =>
        match mac with
        | .str s => .ok (.str (if pyStartsWith s "mac:" then pySlice s 4 else s))
        | _ => .error .attributeError

/-! ## Entity setup (`device_tracker.py`, `sensor.py`) -/

/-- The guard of both setup loops: `isinstance(device, dict) and
"id" in device`. -/
def wantedDevice (d : Val) : Bool :=
  d.isDict && pyContains d "id"

/-- A device-tracker entity, represented by the fields its constructor
reads: `self.device_id = device["id"]`, the box id placed into its
`DeviceInfo` identifiers, and the record it was built from. -/
structure DeviceTrackerEntity where
  device_id : Val
  box_id : Val
  device : Val
  deriving Repr

/-- The `box_id` computation of `FirewallaDeviceTracker.__init__`
(`device_tracker.py` lines 45-47): `box_id = "firewalla_hub"`, replaced by
`coordinator.data["boxes"][0].get("id")` when `coordinator.data.get("boxes")`
is truthy (a non-empty list); that `.get` raises `AttributeError` when the
first box record is not a dict. -/
def tracker_box_id (data : Snap) : Except PyErr Val :=
  match dget? data "boxes" with
  | some (b :: _) => pyGet b "id" Val.none
  | _ => .ok (Val.str "firewalla_hub")

/-- `FirewallaDeviceTracker.__init__` (`device_tracker.py` lines 38-55):
the subscript `device["id"]` (line 41), then the box lookup of lines
45-47. The intervening `device.get("name", ...)` (line 42) cannot raise
once `device["id"]` has succeeded (`device` is then a dict) and is not
modelled separately. -/
def mk_device_tracker (data : Snap) (device : Val) : Except PyErr DeviceTrackerEntity :=
  match pyGetItem device "id" with
  | .error e => .error e
  | .ok did =>
    match tracker_box_id data with
    | .error e => .error e
    | .ok bid => .ok { device_id := did, box_id := bid, device := device }

/-- The entity list comprehension of `device_tracker.async_setup_entry`
(`device_tracker.py` lines 27-31): construct a tracker for each record
passing the guard, in order, against the coordinator snapshot `data`;
a constructor exception propagates. -/
def device_tracker_setup (data : Snap) : List Val → Except PyErr (List DeviceTrackerEntity)
  | [] => .ok []
  | d :: rest =>
    if wantedDevice d then
      match mk_device_tracker data d, device_tracker_setup data rest with
      | .ok e2, .ok L => .ok (e2 :: L)
      | .error e, _ => .error e
      | _, .error e => .error e
    else device_tracker_setup data rest

/-- The snapshot's box reference, as read by the tracker constructor, is
harmless: the boxes collection is absent, empty, or has a dict first
record. -/
def boxesHeadOk (data : Snap) : Bool :=
  match dget? data "boxes" with
  | some (b :: _) => b.isDict
  | _ => true

/-- A device sensor, represented by its kind suffix, the stored
`device["id"]`, and the record it was built from. -/
structure SensorEntity where
  kind : String
  device_id : Val
  device : Val
  deriving Repr

/-- `FirewallaBaseSensor.__init__` restricted to the record: the
subscript `device["id"]` (`sensor.py` line 95). -/
def mk_sensor (kind : String) (device : Val) : Except PyErr SensorEntity :=
  match pyGetItem device "id" with
  | .error e => .error e
  | .ok did => .ok { kind := kind, device_id := did, device := device }

/-- One bandwidth sensor of the device loop (`sensor.py` lines 62-65):
created only when the record carries the corresponding key. -/
def trafficSensor (key kind : String) (d : Val) : Except PyErr (List SensorEntity) :=
  if pyContains d key then
    match mk_sensor kind d with
    | .error e => .error e
    | .ok e2 => .ok [e2]
  else .ok []

/-- The bandwidth-sensor part of one device-loop iteration (`sensor.py`
lines 61-65). -/
def trafficSensors (enable_traffic : Bool) (d : Val) : Except PyErr (List SensorEntity) :=
  if enable_traffic then
    match trafficSensor "totalDownload" "total_download" d,
        trafficSensor "totalUpload" "total_upload" d with
    | .ok dl, .ok ul => .ok (dl ++ ul)
    | .error e, _ => .error e
    | _, .error e => .error e
  else .ok []

/-- The device loop of `sensor.async_setup_entry` (`sensor.py` lines
51-65): skip records that are not dicts with an `"id"` key; append the
three identity sensors; with traffic enabled also the bandwidth sensors
guarded by key presence. An exception in any constructor propagates, in
source order. -/
def sensor_device_entities (enable_traffic : Bool) :
    List Val → Except PyErr (List SensorEntity)
  | [] => .ok []
  | d :: rest =>
    if !wantedDevice d then sensor_device_entities enable_traffic rest
    else
      match mk_sensor "mac_address" d, mk_sensor "ip_address" d,
          mk_sensor "network_name" d, trafficSensors enable_traffic d,
          sensor_device_entities enable_traffic rest with
      | .ok mac, .ok ip, .ok net, .ok tr, .ok restE =>
        .ok ([mac, ip, net] ++ tr ++ restE)
      | .error e, _, _, _, _ => .error e
      | _, .error e, _, _, _ => .error e
      | _, _, .error e, _, _ => .error e
      | _, _, _, .error e, _ => .error e
      | _, _, _, _, .error e => .error e

/-! ## Invariants and derived notions -/

/-- A snapshot is well formed when all five collection keys are present
(their values are record lists by construction of `Snap`). -/
def SnapWF (d : Snap) : Prop :=
  (dget? d "boxes").isSome = true ∧ (dget? d "devices").isSome = true
    ∧ (dget? d "rules").isSome = true ∧ (dget? d "alarms").isSome = true
    ∧ (dget? d "flows").isSome = true

/-- The retained cache, when present, is a well-formed snapshot (true of
every reachable cache: it starts as `None` and is only ever replaced by
merged snapshots). -/
def CacheWF (c : Option Snap) : Prop :=
  ∀ d, c = some d → SnapWF d

/-- The core fetch step raises: `get_devices` or `get_boxes` fails. -/
def coreFetchFails (client : FirewallaApiClient) : Prop :=
  client.get_devices.isOk = false ∨ client.get_boxes.isOk = false

/-- The retained cache's value for collection `k`: `last.get(k, [])`,
with an absent cache acting as the empty dict. -/
def cacheVal (c : Option Snap) (k : String) : List Val :=
  match c with
  | some d => dgetD d k []
  | Option.none => []

/-- Whether the id value of record `d`, as the lookup scans read it
(`d.get("id")` defaulting to `None`), equals `i` under Python `==`. -/
def matchesId (d : Val) (i : Val) : Bool :=
  match d with
  | .obj f => pyEq (dgetD f "id" .none) i
  | _ => false

/-! ## Helper lemmas -/

theorem SnapWF.ne_nil {d : Snap} (h : SnapWF d) : d ≠ [] := by
  intro hnil
  subst hnil
  simpa [dget?] using h.1

theorem dgetD_lastOrEmpty (c : Option Snap) (k : String) :
    dgetD (lastOrEmpty c) k [] = cacheVal c k := by
  cases c with
  | none => rfl
  | some d =>
    simp only [lastOrEmpty, cacheVal]
    by_cases h : d.isEmpty
    · rw [List.isEmpty_iff.mp h]
      simp [h]
    · simp [h]

theorem pyOr_nil (ys : List Val) : pyOr [] ys = ys := rfl

theorem pyOr_ne_nil {xs : List Val} (ys : List Val) (h : xs ≠ []) :
    pyOr xs ys = xs := by
  simp [pyOr, h]

theorem ne_nil_isEmpty_false {α : Type} {l : List α} (h : l ≠ []) :
    l.isEmpty = false := by
  cases l with
  | nil => exact absurd rfl h
  | cons a t => rfl

theorem updateExcept_calls (l : Option Snap) (cs : List FetchOp) :
    (updateExcept l cs).calls = cs := by
  unfold updateExcept
  split <;> rfl

theorem updateExcept_result_ok {l : Option Snap} {cs : List FetchOp} {s : Snap}
    (h : (updateExcept l cs).result = .ok s) : l = some s := by
  unfold updateExcept at h
  split at h
  · cases l with
    | none => simp [cacheTruthy] at *
    | some d =>
      simp only [Option.getD_some, Except.ok.injEq] at h
      rw [h]
  · simp at h

theorem updateExcept_cache (l : Option Snap) (cs : List FetchOp) :
    (updateExcept l cs).cache = l := by
  unfold updateExcept
  split <;> rfl

theorem mem_optCall {op op2 : FetchOp} {b : Bool} (h : op2 ∈ optCall b op) :
    op2 = op := by
  unfold optCall at h
  split at h
  · simpa using h
  · simp at h

theorem dget?_eq_some_dgetD {α : Type} {d : List (String × α)} {k : String}
    (v : α) (h : (dget? d k).isSome = true) : dget? d k = some (dgetD d k v) := by
  unfold dgetD
  cases hd : dget? d k with
  | none => rw [hd] at h; simp at h
  | some x => rfl

/-! ## Demo inputs for witnesses -/

/-- A well-formed snapshot used as a concrete retained cache. -/
def demoSnap : Snap :=
  [("boxes", [Val.str "b"]), ("devices", [Val.str "d"]), ("rules", []),
    ("alarms", []), ("flows", [])]

/-- A config entry with empty flag layers. -/
def demoEntry : ConfigEntry := { options := [], data := [] }

/-- A client whose every fetch raises. -/
def demoFailClient : FirewallaApiClient :=
  { get_devices := .error .typeError, get_boxes := .error .typeError,
    get_rules := .error .typeError, get_alarms := .error .typeError,
    get_flows := .error .typeError }

theorem demoSnap_wf : CacheWF (some demoSnap) := by
  intro d hd
  cases hd
  exact ⟨rfl, rfl, rfl, rfl, rfl⟩

/-! ## Claim theorems -/

/-- C1: `refresh()` raises `UpdateFailed` if and only if the core fetch
step (devices/boxes) raises and no retained cache exists; if the core
fetch step raises while a retained cache exists, `refresh()` returns the
retained cache unchanged (also leaving it stored) and does not raise. -/
theorem refresh_updateFailed_iff (client : FirewallaApiClient) (entry : ConfigEntry)
    (last : Option Snap) (hwf : CacheWF last) :
    ((async_update_data client entry last).result.isOk = false ↔
      coreFetchFails client ∧ last = Option.none)
    ∧ (∀ c, last = some c → coreFetchFails client →
        (async_update_data client entry last).result = .ok c
        ∧ (async_update_data client entry last).cache = some c) := by
  cases hdev : client.get_devices with
  | error e =>
    have hcf : coreFetchFails client := Or.inl (by simp [hdev, Except.isOk, Except.toBool])
    cases last with
    | none =>
      refine ⟨?_, ?_⟩
      · simp [async_update_data, hdev, updateExcept, cacheTruthy, Except.isOk, Except.toBool, hcf]
      · intro c hc
        cases hc
    | some c =>
      have hce : c.isEmpty = false := ne_nil_isEmpty_false (hwf c rfl).ne_nil
      refine ⟨?_, ?_⟩
      · simp [async_update_data, hdev, updateExcept, cacheTruthy, Except.isOk, Except.toBool, hce]
      · intro c2 hc2 _
        injection hc2 with h
        subst h
        simp [async_update_data, hdev, updateExcept, cacheTruthy, hce]
  | ok ds =>
    cases hbox : client.get_boxes with
    | error e =>
      have hcf : coreFetchFails client := Or.inr (by simp [hbox, Except.isOk, Except.toBool])
      cases last with
      | none =>
        refine ⟨?_, ?_⟩
        · simp [async_update_data, hdev, hbox, updateExcept, cacheTruthy,
            Except.isOk, Except.toBool, hcf]
        · intro c hc
          cases hc
      | some c =>
        have hce : c.isEmpty = false := ne_nil_isEmpty_false (hwf c rfl).ne_nil
        refine ⟨?_, ?_⟩
        · simp [async_update_data, hdev, hbox, updateExcept, cacheTruthy,
            Except.isOk, Except.toBool, hce]
        · intro c2 hc2 _
          injection hc2 with h
          subst h
          simp [async_update_data, hdev, hbox, updateExcept, cacheTruthy, hce]
    | ok bs =>
      refine ⟨?_, ?_⟩
      · simp [async_update_data, hdev, hbox, Except.isOk, Except.toBool, coreFetchFails]
      · intro c hc hcf
        rcases hcf with h | h
        · rw [hdev] at h
          simp [Except.isOk, Except.toBool] at h
        · rw [hbox] at h
          simp [Except.isOk, Except.toBool] at h

/-- Witness for C1 at a concrete input: a failing core fetch with the demo
cache retained returns the cache unchanged. -/
theorem refresh_updateFailed_iff_witness :
    CacheWF (some demoSnap)
    ∧ ((async_update_data demoFailClient demoEntry (some demoSnap)).result = .ok demoSnap
      ∧ (async_update_data demoFailClient demoEntry (some demoSnap)).cache = some demoSnap) :=
  ⟨demoSnap_wf,
    (refresh_updateFailed_iff demoFailClient demoEntry (some demoSnap) demoSnap_wf).2
      demoSnap rfl (Or.inl rfl)⟩

/-- A client whose core fetches succeed with fresh non-empty lists, whose
rules fetch succeeds non-empty and whose alarms and flows are irrelevant. -/
def demoOkClient : FirewallaApiClient :=
  { get_devices := .ok [Val.str "d2"], get_boxes := .ok [Val.str "b2"],
    get_rules := .ok [Val.str "r2"], get_alarms := .ok [], get_flows := .ok [] }

/-- C2: on a refresh where the core fetches succeed, every one of the five
collections of the returned snapshot equals the freshly fetched value for
this tick when it is non-empty, otherwise the retained cache's value for
that name, otherwise the empty sequence (`cacheVal` of an absent cache);
the returned snapshot is also stored as the new retained cache. -/
theorem refresh_merge_per_collection (client : FirewallaApiClient) (entry : ConfigEntry)
    (last : Option Snap) (ds bs : List Val)
    (hdev : client.get_devices = .ok ds) (hbox : client.get_boxes = .ok bs) :
    ∃ snap, (async_update_data client entry last).result = .ok snap
      ∧ (async_update_data client entry last).cache = some snap
      ∧ dget? snap "boxes" = some (pyOr bs (cacheVal last "boxes"))
      ∧ dget? snap "devices" = some (pyOr ds (cacheVal last "devices"))
      ∧ dget? snap "rules" = some (pyOr
          (fetchOptional (is_enabled entry CONF_ENABLE_RULES) client.get_rules)
          (cacheVal last "rules"))
      ∧ dget? snap "alarms" = some (pyOr
          (fetchOptional (is_enabled entry CONF_ENABLE_ALARMS) client.get_alarms)
          (cacheVal last "alarms"))
      ∧ dget? snap "flows" = some (pyOr
          (fetchOptional (is_enabled entry CONF_ENABLE_FLOWS) client.get_flows)
          (cacheVal last "flows")) := by
  simp only [async_update_data, hdev, hbox]
  exact ⟨_, rfl, rfl, by simp [dget?, dgetD_lastOrEmpty],
    by simp [dget?, dgetD_lastOrEmpty], by simp [dget?, dgetD_lastOrEmpty],
    by simp [dget?, dgetD_lastOrEmpty], by simp [dget?, dgetD_lastOrEmpty]⟩

/-- Witness for C2 at a concrete input: the demo client against the demo
cache (in particular the legitimately empty alarms fetch is masked by the
cached alarms value). -/
theorem refresh_merge_per_collection_witness :
    demoOkClient.get_devices = .ok [Val.str "d2"]
    ∧ demoOkClient.get_boxes = .ok [Val.str "b2"]
    ∧ (∃ snap, (async_update_data demoOkClient demoEntry (some demoSnap)).result = .ok snap
        ∧ (async_update_data demoOkClient demoEntry (some demoSnap)).cache = some snap
        ∧ dget? snap "boxes" = some (pyOr [Val.str "b2"] (cacheVal (some demoSnap) "boxes"))
        ∧ dget? snap "devices" = some (pyOr [Val.str "d2"] (cacheVal (some demoSnap) "devices"))
        ∧ dget? snap "rules" = some (pyOr
            (fetchOptional (is_enabled demoEntry CONF_ENABLE_RULES) demoOkClient.get_rules)
            (cacheVal (some demoSnap) "rules"))
        ∧ dget? snap "alarms" = some (pyOr
            (fetchOptional (is_enabled demoEntry CONF_ENABLE_ALARMS) demoOkClient.get_alarms)
            (cacheVal (some demoSnap) "alarms"))
        ∧ dget? snap "flows" = some (pyOr
            (fetchOptional (is_enabled demoEntry CONF_ENABLE_FLOWS) demoOkClient.get_flows)
            (cacheVal (some demoSnap) "flows"))) :=
  ⟨rfl, rfl,
    refresh_merge_per_collection demoOkClient demoEntry (some demoSnap) _ _ rfl rfl⟩

/-- C3: a fetch error on one enabled optional collection does not abort
the refresh: with the rules fetch raising (rules enabled), the devices
fetch returning `[]`, and retained cache `{devices: [d1], rules: [r1]}`,
the refresh succeeds and its snapshot takes both devices and rules from
the cache. -/
theorem refresh_optional_error_stale (client : FirewallaApiClient) (entry : ConfigEntry)
    (d1 r1 : Val) (bs : List Val) (e : PyErr)
    (hen : is_enabled entry CONF_ENABLE_RULES = true)
    (hrules : client.get_rules = .error e)
    (hdev : client.get_devices = .ok [])
    (hbox : client.get_boxes = .ok bs) :
    ((async_update_data client entry
        (some [("devices", [d1]), ("rules", [r1])])).result.isOk = true)
    ∧ ∃ snap, (async_update_data client entry
          (some [("devices", [d1]), ("rules", [r1])])).result = .ok snap
        ∧ dget? snap "devices" = some [d1]
        ∧ dget? snap "rules" = some [r1] := by
  simp only [async_update_data, hdev, hbox, hen, hrules]
  refine ⟨rfl, _, rfl, ?_, ?_⟩ <;>
    simp [dget?, dgetD, lastOrEmpty, fetchOptional, pyOr]

/-- A client whose rules fetch raises while the core fetches succeed with
an empty devices list. -/
def demoRulesFailClient : FirewallaApiClient :=
  { get_devices := .ok [], get_boxes := .ok [], get_rules := .error .typeError,
    get_alarms := .ok [], get_flows := .ok [] }

/-- A config entry enabling only the rules collection. -/
def demoRulesEntry : ConfigEntry :=
  { options := [(CONF_ENABLE_RULES, true)], data := [] }

/-- Witness for C3 at a concrete input. -/
theorem refresh_optional_error_stale_witness :
    is_enabled demoRulesEntry CONF_ENABLE_RULES = true
    ∧ demoRulesFailClient.get_rules = .error PyErr.typeError
    ∧ demoRulesFailClient.get_devices = .ok []
    ∧ (((async_update_data demoRulesFailClient demoRulesEntry
          (some [("devices", [Val.str "d1"]), ("rules", [Val.str "r1"])])).result.isOk = true)
      ∧ ∃ snap, (async_update_data demoRulesFailClient demoRulesEntry
            (some [("devices", [Val.str "d1"]), ("rules", [Val.str "r1"])])).result = .ok snap
          ∧ dget? snap "devices" = some [Val.str "d1"]
          ∧ dget? snap "rules" = some [Val.str "r1"]) :=
  ⟨rfl, rfl, rfl,
    refresh_optional_error_stale demoRulesFailClient demoRulesEntry
      (Val.str "d1") (Val.str "r1") [] PyErr.typeError rfl rfl rfl rfl⟩

/-- C4: if all five fetches succeed (with their flags enabled) and each
returns a non-empty sequence, the snapshot returned by `refresh()` is
exactly the freshly fetched data for all five collections, for every prior
cache state. -/
theorem refresh_fresh_wins (client : FirewallaApiClient) (entry : ConfigEntry)
    (last : Option Snap) (ds bs rs als fls : List Val)
    (hdev : client.get_devices = .ok ds) (hds : ds ≠ [])
    (hbox : client.get_boxes = .ok bs) (hbs : bs ≠ [])
    (hren : is_enabled entry CONF_ENABLE_RULES = true)
    (hr : client.get_rules = .ok rs) (hrs : rs ≠ [])
    (haen : is_enabled entry CONF_ENABLE_ALARMS = true)
    (ha : client.get_alarms = .ok als) (hals : als ≠ [])
    (hfen : is_enabled entry CONF_ENABLE_FLOWS = true)
    (hf : client.get_flows = .ok fls) (hfls : fls ≠ []) :
    (async_update_data client entry last).result =
      .ok [("boxes", bs), ("devices", ds), ("rules", rs), ("alarms", als),
        ("flows", fls)] := by
  simp only [async_update_data, hdev, hbox, hren, haen, hfen, hr, ha, hf,
    fetchOptional, if_true]
  rw [pyOr_ne_nil _ hbs, pyOr_ne_nil _ hds, pyOr_ne_nil _ hrs,
    pyOr_ne_nil _ hals, pyOr_ne_nil _ hfls]

/-- A config entry enabling all three optional collections via the
override layer. -/
def demoAllEntry : ConfigEntry :=
  { options := [(CONF_ENABLE_RULES, true), (CONF_ENABLE_ALARMS, true),
      (CONF_ENABLE_FLOWS, true)], data := [] }

/-- A client whose five fetches all succeed with non-empty lists. -/
def demoFullClient : FirewallaApiClient :=
  { get_devices := .ok [Val.str "d2"], get_boxes := .ok [Val.str "b2"],
    get_rules := .ok [Val.str "r2"], get_alarms := .ok [Val.str "a2"],
    get_flows := .ok [Val.str "f2"] }

/-- Witness for C4 at a concrete input: all-fresh data overrides the demo
cache completely. -/
theorem refresh_fresh_wins_witness :
    demoFullClient.get_devices = .ok [Val.str "d2"]
    ∧ ([Val.str "d2"] : List Val) ≠ []
    ∧ is_enabled demoAllEntry CONF_ENABLE_FLOWS = true
    ∧ (async_update_data demoFullClient demoAllEntry (some demoSnap)).result =
      .ok [("boxes", [Val.str "b2"]), ("devices", [Val.str "d2"]),
        ("rules", [Val.str "r2"]), ("alarms", [Val.str "a2"]),
        ("flows", [Val.str "f2"])] :=
  ⟨rfl, by simp, rfl,
    refresh_fresh_wins demoFullClient demoAllEntry (some demoSnap)
      [Val.str "d2"] [Val.str "b2"] [Val.str "r2"] [Val.str "a2"] [Val.str "f2"]
      rfl (by simp) rfl (by simp) rfl rfl (by simp) rfl rfl (by simp)
      rfl rfl (by simp)⟩

/-- C5: if the flows flag resolves to disabled, `refresh()` never invokes
the flows fetch operation, and any snapshot it returns has as its flows
entry the retained cache's flows value (the empty sequence when no cache
exists). -/
theorem refresh_flows_gating (client : FirewallaApiClient) (entry : ConfigEntry)
    (last : Option Snap) (hwf : CacheWF last)
    (hdis : is_enabled entry CONF_ENABLE_FLOWS = false) :
    FetchOp.flows ∉ (async_update_data client entry last).calls
    ∧ ∀ snap, (async_update_data client entry last).result = .ok snap →
        dget? snap "flows" = some (cacheVal last "flows") := by
  cases hdev : client.get_devices with
  | error e =>
    refine ⟨?_, ?_⟩
    · simp [async_update_data, hdev, updateExcept_calls]
    · intro snap hs
      simp only [async_update_data, hdev] at hs
      have hl := updateExcept_result_ok hs
      have hsw := hwf snap hl
      rw [hl]
      simpa [cacheVal] using dget?_eq_some_dgetD [] hsw.2.2.2.2
  | ok ds =>
    cases hbox : client.get_boxes with
    | error e =>
      refine ⟨?_, ?_⟩
      · simp [async_update_data, hdev, hbox, updateExcept_calls]
      · intro snap hs
        simp only [async_update_data, hdev, hbox] at hs
        have hl := updateExcept_result_ok hs
        have hsw := hwf snap hl
        rw [hl]
        simpa [cacheVal] using dget?_eq_some_dgetD [] hsw.2.2.2.2
    | ok bs =>
      refine ⟨?_, ?_⟩
      · cases hr2 : is_enabled entry CONF_ENABLE_RULES <;>
          cases ha2 : is_enabled entry CONF_ENABLE_ALARMS <;>
          simp [async_update_data, hdev, hbox, hdis, hr2, ha2, optCall]
      · intro snap hs
        simp only [async_update_data, hdev, hbox] at hs
        injection hs with h
        subst h
        simp [dget?, hdis, fetchOptional, dgetD_lastOrEmpty, pyOr]

/-- Witness for C5 at a concrete input: flows disabled in the demo entry,
demo cache retained. -/
theorem refresh_flows_gating_witness :
    CacheWF (some demoSnap)
    ∧ is_enabled demoEntry CONF_ENABLE_FLOWS = false
    ∧ FetchOp.flows ∉ (async_update_data demoOkClient demoEntry (some demoSnap)).calls
    ∧ (∀ snap,
        (async_update_data demoOkClient demoEntry (some demoSnap)).result = .ok snap →
        dget? snap "flows" = some (cacheVal (some demoSnap) "flows")) :=
  ⟨demoSnap_wf, rfl,
    (refresh_flows_gating demoOkClient demoEntry (some demoSnap) demoSnap_wf rfl).1,
    (refresh_flows_gating demoOkClient demoEntry (some demoSnap) demoSnap_wf rfl).2⟩

/-- C6: starting from a well-formed (reachable) cache state, every
snapshot `refresh()` returns and every cache value it leaves behind
contains all five collection keys, each mapped to a record list (by the
type of `Snap`); starting from an empty cache, a disabled (hence never
fetched) optional collection is present as the empty sequence. -/
theorem refresh_snapshot_invariant (client : FirewallaApiClient) (entry : ConfigEntry)
    (last : Option Snap) (hwf : CacheWF last) :
    (∀ snap, (async_update_data client entry last).result = .ok snap → SnapWF snap)
    ∧ (∀ d, (async_update_data client entry last).cache = some d → SnapWF d)
    ∧ (last = Option.none →
        ∀ snap, (async_update_data client entry last).result = .ok snap →
          (is_enabled entry CONF_ENABLE_RULES = false → dget? snap "rules" = some [])
          ∧ (is_enabled entry CONF_ENABLE_ALARMS = false → dget? snap "alarms" = some [])
          ∧ (is_enabled entry CONF_ENABLE_FLOWS = false → dget? snap "flows" = some [])) := by
  cases hdev : client.get_devices with
  | error e =>
    refine ⟨?_, ?_, ?_⟩
    · intro snap hs
      simp only [async_update_data, hdev] at hs
      exact hwf snap (updateExcept_result_ok hs)
    · intro d hd
      simp only [async_update_data, hdev, updateExcept_cache] at hd
      exact hwf d hd
    · intro hnone snap hs
      subst hnone
      simp [async_update_data, hdev, updateExcept, cacheTruthy] at hs
  | ok ds =>
    cases hbox : client.get_boxes with
    | error e =>
      refine ⟨?_, ?_, ?_⟩
      · intro snap hs
        simp only [async_update_data, hdev, hbox] at hs
        exact hwf snap (updateExcept_result_ok hs)
      · intro d hd
        simp only [async_update_data, hdev, hbox, updateExcept_cache] at hd
        exact hwf d hd
      · intro hnone snap hs
        subst hnone
        simp [async_update_data, hdev, hbox, updateExcept, cacheTruthy] at hs
    | ok bs =>
      refine ⟨?_, ?_, ?_⟩
      · intro snap hs
        simp only [async_update_data, hdev, hbox] at hs
        injection hs with h
        subst h
        simp [SnapWF, dget?]
      · intro d hd
        simp only [async_update_data, hdev, hbox] at hd
        injection hd with h
        subst h
        simp [SnapWF, dget?]
      · intro hnone snap hs
        subst hnone
        simp only [async_update_data, hdev, hbox] at hs
        injection hs with h
        subst h
        refine ⟨?_, ?_, ?_⟩ <;> intro hflag <;>
          simp [dget?, hflag, fetchOptional, dgetD, lastOrEmpty, pyOr]

/-- Witness for C6 at a concrete input: the demo cache is well formed and
the returned snapshot keeps all five keys. -/
theorem refresh_snapshot_invariant_witness :
    CacheWF (some demoSnap)
    ∧ (∀ snap,
        (async_update_data demoOkClient demoEntry (some demoSnap)).result = .ok snap →
        SnapWF snap) :=
  ⟨demoSnap_wf,
    (refresh_snapshot_invariant demoOkClient demoEntry (some demoSnap) demoSnap_wf).1⟩

/-- C7: each feature flag resolves to the override (options) layer's value
when its key is present there, otherwise to the base (data) layer's value
when present there, otherwise to disabled; the identical expression is
evaluated in `__init__.py` line 61 and `sensor.py` lines 39-41. -/
theorem is_enabled_precedence (opts dta : List (String × Bool)) (key : String) :
    (∀ b, dget? opts key = some b → is_enabled ⟨opts, dta⟩ key = b)
    ∧ (dget? opts key = Option.none → ∀ b, dget? dta key = some b →
        is_enabled ⟨opts, dta⟩ key = b)
    ∧ (dget? opts key = Option.none → dget? dta key = Option.none →
        is_enabled ⟨opts, dta⟩ key = false) := by
  refine ⟨?_, ?_, ?_⟩
  · intro b hb
    simp [is_enabled, hb]
  · intro h1 b hb
    simp [is_enabled, h1, hb]
  · intro h1 h2
    simp [is_enabled, h1, h2]

/-- Witness for C7 at a concrete input: an explicit `false` in the
override layer wins over `true` in the base layer. -/
theorem is_enabled_precedence_witness :
    dget? [("k", false)] "k" = some false
    ∧ is_enabled ⟨[("k", false)], [("k", true)]⟩ "k" = false :=
  ⟨rfl, (is_enabled_precedence [("k", false)] [("k", true)] "k").1 false rfl⟩

theorem isDict_obj {d : Val} (h : d.isDict = true) : ∃ f, d = Val.obj f := by
  cases d <;> simp [Val.isDict] at h ⊢

theorem get_device_data_total (devices : List Val) (i : Val)
    (h : ∀ d ∈ devices, d.isDict = true) :
    (get_device_data devices i).isOk = true
    ∧ ((∀ d ∈ devices, matchesId d i = false) →
        get_device_data devices i = .ok (Val.obj [])) := by
  induction devices with
  | nil => exact ⟨rfl, fun _ => rfl⟩
  | cons d rest ih =>
    obtain ⟨f, rfl⟩ := isDict_obj (h d (List.mem_cons_self d rest))
    have hrest := ih (fun x hx => h x (List.mem_cons_of_mem _ hx))
    refine ⟨?_, ?_⟩
    · cases hpe : pyEq (dgetD f "id" Val.none) i with
      | false => simpa [get_device_data, pyGet, hpe] using hrest.1
      | true => simp [get_device_data, pyGet, hpe, Except.isOk, Except.toBool]
    · intro hall
      have h1 : pyEq (dgetD f "id" Val.none) i = false := by
        have := hall _ (List.mem_cons_self _ _)
        simpa [matchesId] using this
      simp only [get_device_data, pyGet, h1, Bool.false_eq_true, if_false]
      exact hrest.2 (fun x hx => hall x (List.mem_cons_of_mem _ hx))

theorem sensor_device_lookup_total (devices : List Val) (i : Val)
    (h : ∀ d ∈ devices, d.isDict = true) :
    (sensor_device_lookup devices i).isOk = true
    ∧ ((∀ d ∈ devices, matchesId d i = false) →
        sensor_device_lookup devices i = .ok Val.none) := by
  induction devices with
  | nil => exact ⟨rfl, fun _ => rfl⟩
  | cons d rest ih =>
    obtain ⟨f, rfl⟩ := isDict_obj (h d (List.mem_cons_self d rest))
    have hrest := ih (fun x hx => h x (List.mem_cons_of_mem _ hx))
    refine ⟨?_, ?_⟩
    · cases hpe : pyEq (dgetD f "id" Val.none) i with
      | false => simpa [sensor_device_lookup, pyGet, hpe] using hrest.1
      | true => simp [sensor_device_lookup, pyGet, hpe, Except.isOk, Except.toBool]
    · intro hall
      have h1 : pyEq (dgetD f "id" Val.none) i = false := by
        have := hall _ (List.mem_cons_self _ _)
        simpa [matchesId] using this
      simp only [sensor_device_lookup, pyGet, h1, Bool.false_eq_true, if_false]
      exact hrest.2 (fun x hx => hall x (List.mem_cons_of_mem _ hx))

theorem flow_lookup_total (flows : List Val) (i : Val)
    (h : ∀ f ∈ flows, f.isDict = true ∧ pyContains f "id" = true) :
    (flow_lookup flows i).isOk = true
    ∧ ((∀ f ∈ flows, matchesId f i = false) →
        flow_lookup flows i = .ok (Val.obj [])) := by
  induction flows with
  | nil => exact ⟨rfl, fun _ => rfl⟩
  | cons d rest ih =>
    obtain ⟨hd, hid⟩ := h d (List.mem_cons_self d rest)
    obtain ⟨f, rfl⟩ := isDict_obj hd
    obtain ⟨x, hx⟩ : ∃ x, dget? f "id" = some x := by
      simpa [pyContains, Option.isSome_iff_exists] using hid
    have hrest := ih (fun y hy => h y (List.mem_cons_of_mem _ hy))
    have hmatch : matchesId (Val.obj f) i = pyEq x i := by
      simp [matchesId, dgetD, hx]
    refine ⟨?_, ?_⟩
    · cases hpe : pyEq x i with
      | false => simpa [flow_lookup, pyGetItem, hx, hpe] using hrest.1
      | true => simp [flow_lookup, pyGetItem, hx, hpe, Except.isOk, Except.toBool]
    · intro hall
      have h1 : pyEq x i = false := by
        rw [← hmatch]
        exact hall _ (List.mem_cons_self _ _)
      simp only [flow_lookup, pyGetItem, hx, h1, Bool.false_eq_true, if_false]
      exact hrest.2 (fun y hy => hall y (List.mem_cons_of_mem _ hy))

/-- C8 counterexample: the flow lookup is not total on every snapshot — a
flows list containing a dict without an `"id"` key makes the scan raise
`KeyError` instead of returning a "not found" result. -/
theorem lookup_not_total_counterexample :
    flow_lookup [Val.obj []] (Val.str "x") = .error PyErr.keyError
    ∧ (flow_lookup [Val.obj []] (Val.str "x")).isOk = false :=
  ⟨rfl, rfl⟩

/-- C8 (amended): on snapshots whose scanned collection contains only
dict records — for the flow lookup, dict records with an `"id"` key — the
three id-equality lookups are total, and when no record with the searched
id exists they return their "not found" result (`{}`, `None`, `{}`
respectively) rather than raising. -/
theorem lookups_total (devices flows : List Val) (did fid : Val)
    (hdev : ∀ d ∈ devices, d.isDict = true)
    (hfl : ∀ f ∈ flows, f.isDict = true ∧ pyContains f "id" = true) :
    ((get_device_data devices did).isOk = true)
    ∧ ((∀ d ∈ devices, matchesId d did = false) →
        get_device_data devices did = .ok (Val.obj []))
    ∧ ((sensor_device_lookup devices did).isOk = true)
    ∧ ((∀ d ∈ devices, matchesId d did = false) →
        sensor_device_lookup devices did = .ok Val.none)
    ∧ ((flow_lookup flows fid).isOk = true)
    ∧ ((∀ f ∈ flows, matchesId f fid = false) →
        flow_lookup flows fid = .ok (Val.obj [])) :=
  ⟨(get_device_data_total devices did hdev).1,
    (get_device_data_total devices did hdev).2,
    (sensor_device_lookup_total devices did hdev).1,
    (sensor_device_lookup_total devices did hdev).2,
    (flow_lookup_total flows fid hfl).1,
    (flow_lookup_total flows fid hfl).2⟩

/-- A well-formed device list for the lookup witnesses. -/
def demoDevices : List Val := [Val.obj [("id", Val.str "a")]]

/-- A well-formed flow list for the lookup witnesses. -/
def demoFlows : List Val := [Val.obj [("id", Val.num 1)]]

/-- Witness for C8 (amended) at a concrete input: well-formed lists, an id
that matches nothing, all three lookups return their defaults. -/
theorem lookups_total_witness :
    (∀ d ∈ demoDevices, d.isDict = true)
    ∧ (∀ f ∈ demoFlows, f.isDict = true ∧ pyContains f "id" = true)
    ∧ (∀ d ∈ demoDevices, matchesId d (Val.str "zz") = false)
    ∧ get_device_data demoDevices (Val.str "zz") = .ok (Val.obj [])
    ∧ sensor_device_lookup demoDevices (Val.str "zz") = .ok Val.none
    ∧ flow_lookup demoFlows (Val.str "zz") = .ok (Val.obj []) := by
  have hdev : ∀ d ∈ demoDevices, d.isDict = true := by
    intro d hd
    simp only [demoDevices, List.mem_singleton] at hd
    subst hd
    rfl
  have hfl : ∀ f ∈ demoFlows, f.isDict = true ∧ pyContains f "id" = true := by
    intro f hf
    simp only [demoFlows, List.mem_singleton] at hf
    subst hf
    exact ⟨rfl, rfl⟩
  have hm : ∀ d ∈ demoDevices, matchesId d (Val.str "zz") = false := by
    intro d hd
    simp only [demoDevices, List.mem_singleton] at hd
    subst hd
    rfl
  have hmf : ∀ f ∈ demoFlows, matchesId f (Val.str "zz") = false := by
    intro f hf
    simp only [demoFlows, List.mem_singleton] at hf
    subst hf
    rfl
  have h := lookups_total demoDevices demoFlows (Val.str "zz") (Val.str "zz") hdev hfl
  exact ⟨hdev, hfl, hm, h.2.1 hm, h.2.2.2.1 hm, h.2.2.2.2.2 hmf⟩

theorem wantedDevice_getItem {d : Val} (h : wantedDevice d = true) :
    ∃ x, pyGetItem d "id" = .ok x := by
  obtain ⟨hd, hid⟩ := Bool.and_eq_true_iff.mp h
  obtain ⟨f, rfl⟩ := isDict_obj hd
  obtain ⟨x, hx⟩ : ∃ x, dget? f "id" = some x := by
    simpa [pyContains, Option.isSome_iff_exists] using hid
  exact ⟨x, by simp [pyGetItem, hx]⟩

theorem tracker_box_id_ok {data : Snap} (h : boxesHeadOk data = true) :
    ∃ x, tracker_box_id data = .ok x := by
  cases hb : dget? data "boxes" with
  | none => exact ⟨Val.str "firewalla_hub", by simp [tracker_box_id, hb]⟩
  | some l =>
    cases l with
    | nil => exact ⟨Val.str "firewalla_hub", by simp [tracker_box_id, hb]⟩
    | cons b rest =>
      have hd : b.isDict = true := by simpa [boxesHeadOk, hb] using h
      obtain ⟨f, rfl⟩ := isDict_obj hd
      exact ⟨dgetD f "id" Val.none, by simp [tracker_box_id, hb, pyGet]⟩

theorem device_tracker_setup_spec (data : Snap) (devices : List Val)
    (hb : boxesHeadOk data = true) :
    ∃ L, device_tracker_setup data devices = .ok L
      ∧ L.map DeviceTrackerEntity.device = devices.filter wantedDevice := by
  induction devices with
  | nil => exact ⟨[], rfl, rfl⟩
  | cons d t ih =>
    obtain ⟨L, hL, hmap⟩ := ih
    cases hw : wantedDevice d with
    | false =>
      refine ⟨L, ?_, ?_⟩
      · simp [device_tracker_setup, hw, hL]
      · simp [List.filter_cons, hw, hmap]
    | true =>
      obtain ⟨x, hx⟩ := wantedDevice_getItem hw
      obtain ⟨bid, hbid⟩ := tracker_box_id_ok hb
      refine ⟨⟨x, bid, d⟩ :: L, ?_, ?_⟩
      · simp [device_tracker_setup, hw, mk_device_tracker, hx, hbid, hL]
      · simp [List.filter_cons, hw, hmap]

theorem device_tracker_setup_filter (data : Snap) (devices : List Val) :
    device_tracker_setup data devices
      = device_tracker_setup data (devices.filter wantedDevice) := by
  induction devices with
  | nil => rfl
  | cons d t ih =>
    cases hw : wantedDevice d with
    | false => simp [device_tracker_setup, hw, List.filter_cons, ih]
    | true => simp [device_tracker_setup, hw, List.filter_cons, ih]

theorem trafficSensors_ok {d : Val} (b : Bool) (x : Val)
    (hx : pyGetItem d "id" = .ok x) :
    ∃ tr, trafficSensors b d = .ok tr ∧ ∀ e2 ∈ tr, e2.device = d := by
  cases b with
  | false => exact ⟨[], rfl, by simp⟩
  | true =>
    cases h1 : pyContains d "totalDownload" <;> cases h2 : pyContains d "totalUpload"
    · exact ⟨[], by simp [trafficSensors, trafficSensor, h1, h2], by simp⟩
    · refine ⟨[⟨"total_upload", x, d⟩], ?_, by simp⟩
      simp [trafficSensors, trafficSensor, h1, h2, mk_sensor, hx]
    · refine ⟨[⟨"total_download", x, d⟩], ?_, by simp⟩
      simp [trafficSensors, trafficSensor, h1, h2, mk_sensor, hx]
    · refine ⟨[⟨"total_download", x, d⟩, ⟨"total_upload", x, d⟩], ?_, by simp⟩
      simp [trafficSensors, trafficSensor, h1, h2, mk_sensor, hx]

theorem sensor_device_entities_ok (enable_traffic : Bool) (devices : List Val) :
    ∃ M, sensor_device_entities enable_traffic devices = .ok M
      ∧ ∀ e2 ∈ M, wantedDevice e2.device = true ∧ e2.device ∈ devices := by
  induction devices with
  | nil => exact ⟨[], rfl, by simp⟩
  | cons d t ih =>
    obtain ⟨M, hM, hmem⟩ := ih
    cases hw : wantedDevice d with
    | false =>
      refine ⟨M, by simp [sensor_device_entities, hw, hM], ?_⟩
      intro e2 he2
      obtain ⟨h1, h2⟩ := hmem e2 he2
      exact ⟨h1, List.mem_cons_of_mem _ h2⟩
    | true =>
      obtain ⟨x, hx⟩ := wantedDevice_getItem hw
      obtain ⟨tr, htr, htrdev⟩ := trafficSensors_ok enable_traffic x hx
      refine ⟨⟨"mac_address", x, d⟩ :: ⟨"ip_address", x, d⟩ ::
        ⟨"network_name", x, d⟩ :: (tr ++ M), ?_, ?_⟩
      · simp [sensor_device_entities, hw, mk_sensor, hx, htr, hM]
      · intro e2 he2
        rcases List.mem_cons.mp he2 with h | he2
        · subst h
          exact ⟨hw, List.mem_cons_self _ _⟩
        rcases List.mem_cons.mp he2 with h | he2
        · subst h
          exact ⟨hw, List.mem_cons_self _ _⟩
        rcases List.mem_cons.mp he2 with h | he2
        · subst h
          exact ⟨hw, List.mem_cons_self _ _⟩
        rcases List.mem_append.mp he2 with h | h
        · rw [htrdev e2 h]
          exact ⟨hw, List.mem_cons_self _ _⟩
        · obtain ⟨h1, h2⟩ := hmem e2 h
          exact ⟨h1, List.mem_cons_of_mem _ h2⟩

theorem sensor_device_entities_filter (b : Bool) (devices : List Val) :
    sensor_device_entities b devices =
      sensor_device_entities b (devices.filter wantedDevice) := by
  induction devices with
  | nil => rfl
  | cons d t ih =>
    cases hw : wantedDevice d with
    | false => simp [sensor_device_entities, hw, List.filter_cons, ih]
    | true => simp [sensor_device_entities, hw, List.filter_cons, ih]

/-- C9 counterexample: tracker setup does not complete without error on
every snapshot with malformed device records — with
`devices = [{"id": 1}, "junk"]` and `boxes = ["bad"]`, the first
(well-formed) device's constructor reaches `boxes[0].get("id")`
(`device_tracker.py` line 47) and raises `AttributeError`. -/
theorem tracker_setup_raises_counterexample :
    device_tracker_setup [("boxes", [Val.str "bad"])]
        [Val.obj [("id", Val.num 1)], Val.str "junk"] = .error PyErr.attributeError
    ∧ (device_tracker_setup [("boxes", [Val.str "bad"])]
        [Val.obj [("id", Val.num 1)], Val.str "junk"]).isOk = false :=
  ⟨rfl, rfl⟩

/-- C9 (amended): entity setup creates device-tracker and device-sensor
entities only for device records that are dicts containing an `"id"` key,
and malformed records are silently skipped (filtering them away does not
change either result); device-sensor setup completes without raising for
every devices list, and device-tracker setup does so whenever the
snapshot's boxes collection is absent, empty, or has a dict first record
(trackers then created exactly for the well-formed records, in order). -/
theorem entity_setup_skips_malformed (data : Snap) (devices : List Val)
    (enable_traffic : Bool) (hb : boxesHeadOk data = true) :
    (∃ L, device_tracker_setup data devices = .ok L
      ∧ L.map DeviceTrackerEntity.device = devices.filter wantedDevice)
    ∧ device_tracker_setup data devices
      = device_tracker_setup data (devices.filter wantedDevice)
    ∧ (∃ M, sensor_device_entities enable_traffic devices = .ok M
      ∧ ∀ e2 ∈ M, wantedDevice e2.device = true ∧ e2.device ∈ devices)
    ∧ sensor_device_entities enable_traffic devices
      = sensor_device_entities enable_traffic (devices.filter wantedDevice) :=
  ⟨device_tracker_setup_spec data devices hb,
    device_tracker_setup_filter data devices,
    sensor_device_entities_ok enable_traffic devices,
    sensor_device_entities_filter enable_traffic devices⟩

/-- A snapshot whose boxes collection has a dict first record, so the
tracker constructor's box lookup is harmless. -/
def demoTrackerData : Snap := [("boxes", [Val.obj [("id", Val.str "box1")]])]

/-- Witness for C9 (amended) at a concrete input: a harmless boxes
collection, one well-formed and one malformed record; only the
well-formed one yields a tracker. -/
theorem entity_setup_skips_malformed_witness :
    boxesHeadOk demoTrackerData = true
    ∧ ∃ L, device_tracker_setup demoTrackerData
          [Val.obj [("id", Val.str "a")], Val.str "junk"] = .ok L
        ∧ L.map DeviceTrackerEntity.device
          = [Val.obj [("id", Val.str "a")], Val.str "junk"].filter wantedDevice :=
  ⟨rfl, (entity_setup_skips_malformed demoTrackerData
    [Val.obj [("id", Val.str "a")], Val.str "junk"] false rfl).1⟩

theorem sensor_device_lookup_found {devices : List Val} {i : Val}
    {fields : List (String × Val)}
    (h : sensor_device_lookup devices i = .ok (Val.obj fields)) :
    pyEq (dgetD fields "id" Val.none) i = true := by
  induction devices with
  | nil => simp [sensor_device_lookup] at h
  | cons d rest ih =>
    simp only [sensor_device_lookup] at h
    cases d with
    | obj g =>
      simp only [pyGet] at h
      cases hpe : pyEq (dgetD g "id" Val.none) i with
      | true =>
        rw [hpe] at h
        simp only [if_true] at h
        injection h with h2
        injection h2 with h3
        subst h3
        exact hpe
      | false =>
        rw [hpe] at h
        simp only [Bool.false_eq_true, if_false] at h
        exact ih h
    | none => simp [pyGet] at h
    | bool b2 => simp [pyGet] at h
    | num n => simp [pyGet] at h
    | str s => simp [pyGet] at h

/-- C10 counterexample: for a device record with no `"mac"` key whose
stored device id itself starts with `"mac:"`, the sensor's value is the
id with its first four characters removed — not the stored device id as
the claim states. -/
theorem mac_value_default_strip_counterexample :
    mac_native_value [Val.obj [("id", Val.str "mac:AA")]] (Val.str "mac:AA")
      = .ok (Val.str "AA")
    ∧ mac_native_value [Val.obj [("id", Val.str "mac:AA")]] (Val.str "mac:AA")
      ≠ .ok (Val.str "mac:AA") := by
  refine ⟨rfl, ?_⟩
  intro h
  have h0 : (Except.ok (Val.str "AA") : Except PyErr Val)
      = .ok (Val.str "mac:AA") := h
  injection h0 with h2
  injection h2 with h3
  exact absurd h3 (by decide)

/-- C10 (amended): for the first device record with the sensor's id in the
snapshot, the MAC sensor's value is the record's `"mac"` string with its
first four characters removed when it starts with `"mac:"` and unmodified
otherwise; when the record has no `"mac"` key the value is the stored
device id with the same `"mac:"`-stripping rule applied to it; when no
record with the id exists the value is `None`. -/
theorem mac_sensor_value (devices : List Val) (did : String) :
    (sensor_device_lookup devices (Val.str did) = .ok Val.none →
      mac_native_value devices (Val.str did) = .ok Val.none)
    ∧ (∀ fields m, sensor_device_lookup devices (Val.str did) = .ok (Val.obj fields) →
        dget? fields "mac" = some (Val.str m) →
        mac_native_value devices (Val.str did)
          = .ok (.str (if pyStartsWith m "mac:" then pySlice m 4 else m)))
    ∧ (∀ fields, sensor_device_lookup devices (Val.str did) = .ok (Val.obj fields) →
        dget? fields "mac" = Option.none →
        mac_native_value devices (Val.str did)
          = .ok (.str (if pyStartsWith did "mac:" then pySlice did 4 else did))) := by
  refine ⟨?_, ?_, ?_⟩
  · intro h
    simp [mac_native_value, h, pyTruthy]
  · intro fields m h hm
    have hfound := sensor_device_lookup_found h
    have hne : fields ≠ [] := by
      intro hnil
      subst hnil
      have hb : (false : Bool) = true := hfound
      cases hb
    have htruth : pyTruthy (Val.obj fields) = true := by
      simp [pyTruthy, ne_nil_isEmpty_false hne]
    simp [mac_native_value, h, htruth, pyGet, dgetD, hm]
  · intro fields h hm
    have hfound := sensor_device_lookup_found h
    have hne : fields ≠ [] := by
      intro hnil
      subst hnil
      have hb : (false : Bool) = true := hfound
      cases hb
    have htruth : pyTruthy (Val.obj fields) = true := by
      simp [pyTruthy, ne_nil_isEmpty_false hne]
    simp [mac_native_value, h, htruth, pyGet, dgetD, hm]

/-- Witness for C10 (amended) at concrete inputs: a record with a
`"mac:"`-prefixed mac string is stripped, and an absent record yields
`None`. -/
theorem mac_sensor_value_witness :
    sensor_device_lookup [Val.obj [("id", Val.str "x"), ("mac", Val.str "mac:AB")]]
        (Val.str "x") = .ok (Val.obj [("id", Val.str "x"), ("mac", Val.str "mac:AB")])
    ∧ mac_native_value [Val.obj [("id", Val.str "x"), ("mac", Val.str "mac:AB")]]
        (Val.str "x") = .ok (Val.str "AB")
    ∧ mac_native_value [] (Val.str "x") = .ok Val.none := by
  refine ⟨rfl, ?_, ?_⟩
  · have h := (mac_sensor_value
        [Val.obj [("id", Val.str "x"), ("mac", Val.str "mac:AB")]] "x").2.1
      [("id", Val.str "x"), ("mac", Val.str "mac:AB")] "mac:AB" rfl rfl
    exact h.trans rfl
  · exact (mac_sensor_value [] "x").1 rfl

